import Mathlib

/-!
# Verification of the Solana smart-contract audit workflow

A shallow embedding of `src/workflows/solana-audit-workflow.ts`
(steps `staticAnalysis`, `dynamicAnalysis`, `autoFix`, the workflow
input validation, and the helper `validateSolanaProgram`).

Strings are modelled as `List Char`.  The external model agent is an
oracle: each stage takes, besides its input record, a `ModelOutcome`
that is either the fully accumulated streamed response text or the
error message thrown during the invocation.  All post-processing on
the accumulated text (keyword searches, the two extraction regexes,
the zod `min(1)` validation) is translated directly from the source.
-/

namespace SolanaAudit

/-- JavaScript `haystack.includes(needle)`: `needle` occurs as a
contiguous substring of `haystack`. -/
def containsSub : List Char → List Char → Bool
  | hay, needle =>
    match hay with
    | [] => needle.isEmpty
    | c :: t => needle.isPrefixOf (c :: t) || containsSub t needle

/-- `containsSub` agrees with the existence of a substring decomposition. -/
theorem containsSub_iff (hay needle : List Char) :
    containsSub hay needle = true ↔ ∃ pre post, hay = pre ++ needle ++ post := by
  induction hay with
  | nil =>
    simp only [containsSub, List.isEmpty_iff]
    constructor
    · rintro rfl
      exact ⟨[], [], rfl⟩
    · rintro ⟨pre, post, h⟩
      rcases pre with _ | ⟨p, ps⟩
      · rcases needle with _ | ⟨n, ns⟩
        · rfl
        · simp at h
      · simp at h
  | cons c t ih =>
    simp only [containsSub, Bool.or_eq_true, ih]
    constructor
    · rintro (hpre | ⟨pre, post, rfl⟩)
      · rw [List.isPrefixOf_iff_prefix] at hpre
        obtain ⟨post, hpost⟩ := hpre
        exact ⟨[], post, by simp [← hpost]⟩
      · exact ⟨c :: pre, post, by simp⟩
    · rintro ⟨pre, post, h⟩
      rcases pre with _ | ⟨p, ps⟩
      · left
        rw [List.isPrefixOf_iff_prefix]
        exact ⟨post, by simpa using h.symm⟩
      · right
        simp only [List.cons_append, List.cons.injEq] at h
        exact ⟨ps, post, h.2⟩

theorem containsSub_of_append (pre s post : List Char) :
    containsSub (pre ++ s ++ post) s = true :=
  (containsSub_iff _ _).mpr ⟨pre, post, rfl⟩

/-- Whitespace as matched by the JavaScript regex class `\s`. -/
def jsWhitespace (c : Char) : Bool :=
  c = ' ' || c = '\t' || c = '\n' || c = '\r' ||
  c = '\x0b' || c = '\x0c' || c = '\u00a0' || c = '\u1680' ||
  ('\u2000' ≤ c && c ≤ '\u200a') || c = '\u2028' || c = '\u2029' ||
  c = '\u202f' || c = '\u205f' || c = '\u3000' || c = '\ufeff'

/-- Outcome of one invocation of the model agent: either the fully
accumulated response text of `agent.stream`, or the message of the
error the invocation threw. -/
inductive ModelOutcome where
  | success (text : List Char)
  | failure (message : List Char)

/-- The workflow's input record (zod schema `auditInput` /
`staticAnalysis.inputSchema`): `code` plus three optional fields. -/
structure AuditRequest where
  code : List Char
  programId : Option (List Char)
  fileName : Option (List Char)
  testCases : Option (List (List Char))

/-- The four severity levels of the `z.enum`. -/
inductive Severity where
  | low
  | medium
  | high
  | critical
deriving DecidableEq

/-- Output record of the `staticAnalysis` step. -/
structure StageAResult where
  issues : List Char
  severity : Severity
  issueCount : Nat

/-- JavaScript `x || d` on an optional string field: the default is
used when the field is absent or the empty string (both falsy). -/
def jsOr (v : Option (List Char)) (d : List Char) : List Char :=
  match v with
  | none => d
  | some s => if s.isEmpty then d else s

/-- Severity classification of `staticAnalysis`:
`issues.toLowerCase().includes("critical") ? "critical" :
 issues.toLowerCase().includes("high") ? "high" :
 issues.toLowerCase().includes("medium") ? "medium" : "low"`. -/
def severityOf (issues : List Char) : Severity :=
  let lower := issues.map Char.toLower
  if containsSub lower ("critical".toList) then Severity.critical
  else if containsSub lower ("high".toList) then Severity.high
  else if containsSub lower ("medium".toList) then Severity.medium
  else Severity.low

/-- Number of matches of the global case-insensitive regex
`/🚨|vulnerability|issue/gi` against the response text; the argument
here is the already lower-cased text, matched left to right,
non-overlapping, alternatives tried in the regex's order. -/
def countMarkers : List Char → Nat
  | [] => 0
  | c :: t =>
    if c = '🚨' then countMarkers t + 1
    else if ("vulnerability".toList).isPrefixOf (c :: t) then
      countMarkers (t.drop 12) + 1
    else if ("issue".toList).isPrefixOf (c :: t) then
      countMarkers (t.drop 4) + 1
    else countMarkers t
termination_by l => l.length
decreasing_by
  · simp only [List.length_cons]
    omega
  · simp only [List.length_drop, List.length_cons]
    omega
  · simp only [List.length_drop, List.length_cons]
    omega
  · simp only [List.length_cons]
    omega

/-- Fixed pieces of the prompt template of `staticAnalysis` around the
two interpolations `${inputData.fileName || "program.rs"}` and
`${inputData.programId || "Unknown"}` and the code block. -/
def staticPromptHead : List Char :=
  ("\nYou are a Solana smart contract security auditor. Analyze this code:\n\nFile: ").toList

def staticPromptMid : List Char :=
  ("\nProgram ID: ").toList

def staticPromptCodeIntro : List Char :=
  ("\n\nCode:\n```rust\n").toList

def staticPromptTail : List Char :=
  ("\n```\n\nFocus on:\n- Missing signer checks (ctx.accounts.authority.is_signer)\n- PDA validation and seed verification\n- Account validation (owner, account type, constraints)\n- Integer overflow/underflow (use checked_add, checked_sub, etc.)\n- Reentrancy via CPI calls\n- Rent exemption and ownership checks\n- Access control and authorization\n- Proper error handling\n\nProvide detailed analysis with line numbers and severity levels.\n").toList

/-- The prompt `staticAnalysis` sends to the model agent. -/
def staticPrompt (req : AuditRequest) : List Char :=
  staticPromptHead ++ jsOr req.fileName ("program.rs".toList) ++
  staticPromptMid ++ jsOr req.programId ("Unknown".toList) ++
  staticPromptCodeIntro ++ req.code ++ staticPromptTail

/-- The `staticAnalysis` step: on success, classify the accumulated
response; on a thrown error, catch it and degrade to a well-formed
result (`severity "medium"`, `issueCount 0`, message embedding the
error). -/
def staticAnalysis (req : AuditRequest) (out : ModelOutcome) : StageAResult :=
  match out with
  | ModelOutcome.success text =>
    { issues := text
      severity := severityOf text
      issueCount := countMarkers (text.map Char.toLower) }
  | ModelOutcome.failure msg =>
    { issues := ("Static analysis failed: ").toList ++ msg
      severity := Severity.medium
      issueCount := 0 }

/-- One entry of `testResults`. -/
structure TestResult where
  testCase : List Char
  passed : Bool
  details : List Char

/-- Input record of the `dynamicAnalysis` step. -/
structure StageBInput where
  code : List Char
  issues : List Char
  severity : Severity
  issueCount : Nat
  testCases : Option (List (List Char))

/-- Output record of the `dynamicAnalysis` step. -/
structure StageBResult where
  simulationReport : List Char
  testResults : List TestResult

/-- The `dynamicAnalysis` step: on success, fabricate the three fixed
test-result entries, each passed flag decided by a verbatim
(case-sensitive) `report.includes(...)` check; on a thrown error,
catch it and return an error-annotated report with an empty
`testResults`. -/
def dynamicAnalysis (input : StageBInput) (out : ModelOutcome) : StageBResult :=
  match out with
  | ModelOutcome.success report =>
    { simulationReport := report
      testResults :=
        [ { testCase := ("Authorization Check Test").toList
            passed := containsSub report (("properly authorized").toList)
            details := ("Testing signer validation and access control").toList }
        , { testCase := ("PDA Validation Test").toList
            passed := containsSub report (("PDA correctly validated").toList)
            details := ("Testing Program Derived Address validation").toList }
        , { testCase := ("Integer Overflow Test").toList
            passed := containsSub report (("safe arithmetic").toList)
            details := ("Testing for integer overflow vulnerabilities").toList } ] }
  | ModelOutcome.failure msg =>
    { simulationReport := ("Dynamic analysis failed: ").toList ++ msg
      testResults := [] }

/-- Input record of the `autoFix` step. -/
structure StageCInput where
  code : List Char
  issues : List Char
  simulationReport : List Char
  testResults : List TestResult

/-- Output record of the `autoFix` step. -/
structure StageCResult where
  fixedCode : List Char
  changesSummary : List Char
  confidence : Nat

/-- The characters strictly before the first occurrence of `stop` in
the list, or `none` when `stop` never occurs. -/
def takeUntilSub (stop : List Char) : List Char → Option (List Char)
  | [] => none
  | c :: t =>
    if stop.isPrefixOf (c :: t) then some []
    else
      match takeUntilSub stop t with
      | some g => some (c :: g)
      | none => none

/-- Hand-compiled `response.match(/FIXED_CODE:\s*```rust\n([\s\S]*?)\n```/)`:
scan for the leftmost position where the full pattern matches and
return capture group 1.  At a candidate position the literal
`FIXED_CODE:` is followed by a greedy `\s*` run (no backtracking is
possible because the next required character, a backtick, is never
whitespace), then the literal `` ```rust\n ``, then the lazy group,
which ends at the first subsequent `\n``` `. -/
def extractFCFrom : List Char → Option (List Char)
  | [] => none
  | c :: t =>
    if (("FIXED_CODE:").toList).isPrefixOf (c :: t) then
      let rest := (t.drop 10).dropWhile jsWhitespace
      if (("```rust\n").toList).isPrefixOf rest then
        match takeUntilSub (("\n```").toList) (rest.drop 8) with
        | some g => some g
        | none => extractFCFrom t
      else extractFCFrom t
    else extractFCFrom t

/-- The lazy group of `CHANGES_SUMMARY:\s*([\s\S]*?)(?:\n\n|\n$|$)`:
the shortest prefix of the remaining text that is followed by a
blank line, by a final newline, or by the end of the text. -/
def csGroup : List Char → List Char
  | [] => []
  | c :: t =>
    if (("\n\n").toList).isPrefixOf (c :: t) then []
    else if c = '\n' && t.isEmpty then []
    else c :: csGroup t

/-- Hand-compiled
`response.match(/CHANGES_SUMMARY:\s*([\s\S]*?)(?:\n\n|\n$|$)/)`:
the pattern matches at the leftmost occurrence of the literal
`CHANGES_SUMMARY:` (its tail can always match, via the `$`
alternative, once the literal is found); the greedy `\s*` consumes
the whitespace run and the lazy group is `csGroup` of the rest. -/
def extractCSFrom : List Char → Option (List Char)
  | [] => none
  | c :: t =>
    if (("CHANGES_SUMMARY:").toList).isPrefixOf (c :: t) then
      some (csGroup ((t.drop 15).dropWhile jsWhitespace))
    else extractCSFrom t

/-- Whether the `FIXED_CODE:` extraction pattern matches the response. -/
def matchesFC (response : List Char) : Bool :=
  (extractFCFrom response).isSome

/-- Whether the `CHANGES_SUMMARY:` extraction pattern matches the response. -/
def matchesCS (response : List Char) : Bool :=
  (extractCSFrom response).isSome

/-- The `autoFix` step: on success, extract the fixed code and the
changes summary via the two regexes, falling back to the raw response
text resp. a constant placeholder, with confidence 85 when both
matched and 60 otherwise; on a thrown error, catch it and return the
original input code with confidence 0. -/
def autoFix (input : StageCInput) (out : ModelOutcome) : StageCResult :=
  match out with
  | ModelOutcome.success response =>
    let codeMatch := extractFCFrom response
    let summaryMatch := extractCSFrom response
    { fixedCode :=
        match codeMatch with
        | some g => g
        | none => response
      changesSummary :=
        match summaryMatch with
        | some s => s
        | none => ("Code fixes applied").toList
      confidence := if codeMatch.isSome && summaryMatch.isSome then 85 else 60 }
  | ModelOutcome.failure msg =>
    { fixedCode := input.code
      changesSummary := ("Auto-fix failed: ").toList ++ msg
      confidence := 0 }

/-- Overall output record of the workflow (schema `auditOutput`,
fields of the three stages assembled after a full run). -/
structure AuditResult where
  issues : List Char
  severity : Severity
  issueCount : Nat
  simulationReport : List Char
  testResults : List TestResult
  fixedCode : List Char
  changesSummary : List Char
  confidence : Nat

/-- Stage B's input as assembled by the workflow chain from the
request and Stage A's output. -/
def stageBInputOf (req : AuditRequest) (a : StageAResult) : StageBInput :=
  { code := req.code
    issues := a.issues
    severity := a.severity
    issueCount := a.issueCount
    testCases := req.testCases }

/-- Stage C's input as assembled by the workflow chain from the
request, Stage A's output and Stage B's output. -/
def stageCInputOf (req : AuditRequest) (a : StageAResult) (b : StageBResult) :
    StageCInput :=
  { code := req.code
    issues := a.issues
    simulationReport := b.simulationReport
    testResults := b.testResults }

/-- The declarative chain
`createWorkflow(...).then(staticAnalysis).then(dynamicAnalysis).then(autoFix)`:
the three stages run strictly in sequence, each one's outcome given
by its own model invocation. -/
def runPipeline (req : AuditRequest) (outA outB outC : ModelOutcome) :
    AuditResult :=
  let a := staticAnalysis req outA
  let b := dynamicAnalysis (stageBInputOf req a) outB
  let c := autoFix (stageCInputOf req a b) outC
  { issues := a.issues
    severity := a.severity
    issueCount := a.issueCount
    simulationReport := b.simulationReport
    testResults := b.testResults
    fixedCode := c.fixedCode
    changesSummary := c.changesSummary
    confidence := c.confidence }

/-- The workflow's entry validation, `z.string().min(1, "Code cannot
be empty")` on the `code` field of `auditInput` (the optional fields
cannot fail). -/
def parseAuditInput (req : AuditRequest) : Except (List Char) AuditRequest :=
  if 1 ≤ req.code.length then Except.ok req
  else Except.error (("Code cannot be empty").toList)

/-- A full run of the committed workflow: validate the input, then, if
it is accepted, run the three stages in sequence; a rejected input
runs no stage. -/
def runAudit (req : AuditRequest) (outA outB outC : ModelOutcome) :
    Except (List Char) AuditResult :=
  match parseAuditInput req with
  | Except.ok r => Except.ok (runPipeline r outA outB outC)
  | Except.error e => Except.error e

/-- Result record of the helper `validateSolanaProgram`. -/
structure ValidationResult where
  isValid : Bool
  errors : List (List Char)

def missingImportsMsg : List Char := ("Missing Solana/Anchor imports").toList

def missingEntryMsg : List Char := ("Missing program entry point").toList

def unwrapMsg : List Char :=
  ("Found unwrap() calls - use proper error handling").toList

/-- The helper `validateSolanaProgram`: three independent lexical
checks pushing fixed messages onto `errors` in a fixed order;
`isValid` is `errors.length === 0`.  It is not referenced by the
workflow (`runAudit`/`runPipeline` above make no use of it). -/
def validateSolanaProgram (code : List Char) : ValidationResult :=
  let e1 :=
    if !(containsSub code (("use anchor_lang::prelude::*").toList)) &&
       !(containsSub code (("use solana_program::").toList)) then
      [missingImportsMsg]
    else []
  let e2 :=
    if !(containsSub code (("#[program]").toList)) &&
       !(containsSub code (("entrypoint!").toList)) then
      [missingEntryMsg]
    else []
  let e3 :=
    if containsSub code (("unwrap()").toList) then [unwrapMsg] else []
  let errors := e1 ++ e2 ++ e3
  { isValid := errors.isEmpty
    errors := errors }

/-! ## Claim theorems -/

/-- C1: Stage A's severity classification is a deterministic function of
the accumulated response text: case-insensitive substring search in the
fixed priority order "critical" > "high" > "medium", defaulting to
"low" when no keyword matches; in particular, any response containing
"critical" in any letter case is classified "critical" regardless of
which lower-priority keywords also appear. -/
theorem c1_severity_keyword_priority (issues : List Char) :
    (containsSub (issues.map Char.toLower) (("critical").toList) = true →
      severityOf issues = Severity.critical) ∧
    (containsSub (issues.map Char.toLower) (("critical").toList) = false →
      containsSub (issues.map Char.toLower) (("high").toList) = true →
      severityOf issues = Severity.high) ∧
    (containsSub (issues.map Char.toLower) (("critical").toList) = false →
      containsSub (issues.map Char.toLower) (("high").toList) = false →
      containsSub (issues.map Char.toLower) (("medium").toList) = true →
      severityOf issues = Severity.medium) ∧
    (containsSub (issues.map Char.toLower) (("critical").toList) = false →
      containsSub (issues.map Char.toLower) (("high").toList) = false →
      containsSub (issues.map Char.toLower) (("medium").toList) = false →
      severityOf issues = Severity.low) ∧
    (∀ pre mid post, issues = pre ++ mid ++ post →
      mid.map Char.toLower = ("critical").toList →
      severityOf issues = Severity.critical) := by
  refine ⟨?_, ?_, ?_, ?_, ?_⟩
  · intro h1
    simp only [severityOf, h1]
    simp
  · intro h1 h2
    simp only [severityOf, h1, h2]
    simp
  · intro h1 h2 h3
    simp only [severityOf, h1, h2, h3]
    simp
  · intro h1 h2 h3
    simp only [severityOf, h1, h2, h3]
    simp
  · rintro pre mid post rfl hmid
    have h1 : containsSub (List.map Char.toLower (pre ++ mid ++ post))
        (("critical").toList) = true := by
      rw [List.map_append, List.map_append, hmid]
      exact containsSub_of_append _ _ _
    simp only [severityOf, h1]
    simp

theorem c1_severity_keyword_priority_witness :
    severityOf (("Severity: CRITICAL, also high and medium issues").toList) =
      Severity.critical :=
  (c1_severity_keyword_priority _).1 (by decide)

/-- C2: in a Stage C run with a successful model invocation, confidence
is 85 iff both the `FIXED_CODE:` and the `CHANGES_SUMMARY:` extraction
patterns match the accumulated response, and 60 otherwise; a failed
invocation yields confidence 0; confidence is always one of 0, 60, 85. -/
theorem c2_confidence_values (input : StageCInput) (resp msg : List Char) :
    ((autoFix input (ModelOutcome.success resp)).confidence = 85 ↔
      (matchesFC resp = true ∧ matchesCS resp = true)) ∧
    (¬(matchesFC resp = true ∧ matchesCS resp = true) →
      (autoFix input (ModelOutcome.success resp)).confidence = 60) ∧
    ((autoFix input (ModelOutcome.failure msg)).confidence = 0) ∧
    (∀ out : ModelOutcome, (autoFix input out).confidence = 0 ∨
      (autoFix input out).confidence = 60 ∨
      (autoFix input out).confidence = 85) := by
  refine ⟨?_, ?_, rfl, ?_⟩
  · unfold matchesFC matchesCS
    cases h1 : (extractFCFrom resp).isSome <;>
      cases h2 : (extractCSFrom resp).isSome <;>
      simp [autoFix, h1, h2]
  · unfold matchesFC matchesCS
    cases h1 : (extractFCFrom resp).isSome <;>
      cases h2 : (extractCSFrom resp).isSome <;>
      simp [autoFix, h1, h2]
  · intro out
    cases out with
    | success r =>
      cases h1 : (extractFCFrom r).isSome <;>
        cases h2 : (extractCSFrom r).isSome <;>
        simp [autoFix, h1, h2]
    | failure m =>
      left
      rfl

theorem c2_confidence_values_witness :
    (autoFix (StageCInput.mk [] [] [] [])
      (ModelOutcome.success (("no markers here").toList))).confidence = 60 :=
  (c2_confidence_values (StageCInput.mk [] [] [] [])
    (("no markers here").toList) []).2.1 (by decide)

/-- C3 as frozen is false on the code: when the model invocation
succeeds but the `FIXED_CODE:` pattern does not match, `fixedCode` is
the raw response text, not the original input code.  Concretely, with
input code "abc" and response "hello" the pattern does not match and
the returned `fixedCode` is "hello" ≠ "abc". -/
theorem c3_extraction_fallback_counterexample :
    matchesFC (("hello").toList) = false ∧
    ¬((autoFix (StageCInput.mk (("abc").toList) [] [] [])
      (ModelOutcome.success (("hello").toList))).fixedCode =
        ("abc").toList) := by
  decide

/-- C3 amended: when the `FIXED_CODE:` pattern fails to match a
successful response, the returned `fixedCode` is the raw response text
byte-for-byte; the returned `fixedCode` equals the original input code
byte-for-byte exactly in the model-invocation-failure branch. -/
theorem c3_fallback_behavior (input : StageCInput) (resp msg : List Char) :
    (matchesFC resp = false →
      (autoFix input (ModelOutcome.success resp)).fixedCode = resp) ∧
    (autoFix input (ModelOutcome.failure msg)).fixedCode = input.code := by
  refine ⟨?_, rfl⟩
  intro h
  unfold matchesFC at h
  cases hE : extractFCFrom resp with
  | none => simp [autoFix, hE]
  | some g =>
    rw [hE] at h
    simp at h

theorem c3_fallback_behavior_witness :
    (autoFix (StageCInput.mk (("abc").toList) [] [] [])
      (ModelOutcome.success (("hello").toList))).fixedCode =
      ("hello").toList :=
  (c3_fallback_behavior (StageCInput.mk (("abc").toList) [] [] [])
    (("hello").toList) []).1 (by decide)

/-- C4: an error thrown by the model invocation inside Stage A is
caught and converted into a well-formed result with severity "medium",
issueCount 0, and an issues text containing the error's message; the
pipeline still runs Stages B and C on this degraded output and
completes, its downstream fields being exactly those stages' outputs. -/
theorem c4_stageA_failure_degrades (req : AuditRequest) (err : List Char)
    (outB outC : ModelOutcome) :
    (staticAnalysis req (ModelOutcome.failure err)).severity =
      Severity.medium ∧
    (staticAnalysis req (ModelOutcome.failure err)).issueCount = 0 ∧
    containsSub (staticAnalysis req (ModelOutcome.failure err)).issues err =
      true ∧
    (runPipeline req (ModelOutcome.failure err) outB outC).testResults =
      (dynamicAnalysis
        (stageBInputOf req (staticAnalysis req (ModelOutcome.failure err)))
        outB).testResults ∧
    (runPipeline req (ModelOutcome.failure err) outB outC).confidence =
      (autoFix
        (stageCInputOf req (staticAnalysis req (ModelOutcome.failure err))
          (dynamicAnalysis
            (stageBInputOf req (staticAnalysis req (ModelOutcome.failure err)))
            outB))
        outC).confidence := by
  refine ⟨rfl, rfl, ?_, rfl, rfl⟩
  have h := containsSub_of_append (("Static analysis failed: ").toList) err []
  simpa [staticAnalysis] using h

/-- C5 as frozen is false on the code: a Stage B invocation whose model
call fails returns an empty `testResults`, not three entries. -/
theorem c5_failure_counterexample :
    ¬((dynamicAnalysis (StageBInput.mk [] [] Severity.low 0 none)
      (ModelOutcome.failure (("boom").toList))).testResults.length = 3) := by
  decide

/-- C5 amended: in every Stage B run whose model invocation succeeds,
`testResults` contains exactly three entries, in fixed order, with the
invariant identity strings "Authorization Check Test", "PDA Validation
Test" and "Integer Overflow Test", regardless of the response content;
a run whose model invocation fails returns an empty `testResults`. -/
theorem c5_success_three_fixed_tests (input : StageBInput)
    (resp msg : List Char) :
    ((dynamicAnalysis input (ModelOutcome.success resp)).testResults.length =
      3) ∧
    ((dynamicAnalysis input (ModelOutcome.success resp)).testResults.map
        TestResult.testCase =
      [("Authorization Check Test").toList, ("PDA Validation Test").toList,
       ("Integer Overflow Test").toList]) ∧
    ((dynamicAnalysis input (ModelOutcome.failure msg)).testResults = []) :=
  ⟨rfl, rfl, rfl⟩

/-- C6: for a Stage B run with a successful model invocation, the
passed flag of each of the three entries is true exactly when its
fixed phrase occurs verbatim (exact case) as a substring of the
accumulated response text. -/
theorem c6_passed_iff_phrase (input : StageBInput) (resp : List Char) :
    ∃ t1 t2 t3 : TestResult,
      (dynamicAnalysis input (ModelOutcome.success resp)).testResults =
        [t1, t2, t3] ∧
      t1.testCase = ("Authorization Check Test").toList ∧
      (t1.passed = true ↔
        ∃ pre post, resp = pre ++ ("properly authorized").toList ++ post) ∧
      t2.testCase = ("PDA Validation Test").toList ∧
      (t2.passed = true ↔
        ∃ pre post, resp = pre ++ ("PDA correctly validated").toList ++ post) ∧
      t3.testCase = ("Integer Overflow Test").toList ∧
      (t3.passed = true ↔
        ∃ pre post, resp = pre ++ ("safe arithmetic").toList ++ post) := by
  refine ⟨_, _, _, rfl, rfl, ?_, rfl, ?_, rfl, ?_⟩ <;>
    exact containsSub_iff resp _

/-- C7: a request whose code field is the empty string is rejected by
the entry validation with the message "Code cannot be empty" and no
stage executes; a request with non-empty code passes the validation
and the full pipeline runs. -/
theorem c7_empty_code_rejected (req : AuditRequest)
    (outA outB outC : ModelOutcome) :
    (req.code = [] →
      runAudit req outA outB outC =
        Except.error (("Code cannot be empty").toList)) ∧
    (req.code ≠ [] →
      runAudit req outA outB outC =
        Except.ok (runPipeline req outA outB outC)) := by
  constructor
  · intro h
    simp [runAudit, parseAuditInput, h]
  · intro h
    rcases hq : req.code with _ | ⟨x, xs⟩
    · exact absurd hq h
    · simp [runAudit, parseAuditInput, hq]

theorem c7_empty_code_rejected_witness :
    runAudit (AuditRequest.mk [] none none none)
      (ModelOutcome.failure []) (ModelOutcome.failure [])
      (ModelOutcome.failure []) =
      Except.error (("Code cannot be empty").toList) :=
  (c7_empty_code_rejected (AuditRequest.mk [] none none none)
    (ModelOutcome.failure []) (ModelOutcome.failure [])
    (ModelOutcome.failure [])).1 rfl

/-- C8: `validateSolanaProgram` is a pure lexical check: it reports
"Missing Solana/Anchor imports" exactly when the text contains neither
Anchor nor Solana import marker, "Missing program entry point" exactly
when it contains neither `#[program]` nor `entrypoint!`, and the
unwrap warning exactly when it contains `unwrap()`; the workflow's
`runAudit`/`runPipeline` make no use of it. -/
theorem c8_validate_lexical_checks (code : List Char) :
    (missingImportsMsg ∈ (validateSolanaProgram code).errors ↔
      (containsSub code (("use anchor_lang::prelude::*").toList) = false ∧
       containsSub code (("use solana_program::").toList) = false)) ∧
    (missingEntryMsg ∈ (validateSolanaProgram code).errors ↔
      (containsSub code (("#[program]").toList) = false ∧
       containsSub code (("entrypoint!").toList) = false)) ∧
    (unwrapMsg ∈ (validateSolanaProgram code).errors ↔
      containsSub code (("unwrap()").toList) = true) := by
  have h12 : missingImportsMsg ≠ missingEntryMsg := by decide
  have h13 : missingImportsMsg ≠ unwrapMsg := by decide
  have h21 : missingEntryMsg ≠ missingImportsMsg := by decide
  have h23 : missingEntryMsg ≠ unwrapMsg := by decide
  have h31 : unwrapMsg ≠ missingImportsMsg := by decide
  have h32 : unwrapMsg ≠ missingEntryMsg := by decide
  cases hA : containsSub code (("use anchor_lang::prelude::*").toList) <;>
    cases hB : containsSub code (("use solana_program::").toList) <;>
    cases hC : containsSub code (("#[program]").toList) <;>
    cases hD : containsSub code (("entrypoint!").toList) <;>
    cases hE : containsSub code (("unwrap()").toList) <;>
    simp only [validateSolanaProgram, hA, hB, hC, hD, hE] <;>
    simp [h12, h13, h21, h23, h31, h32]

/-- C9: `isValid` is true exactly when the error list is empty, and
the error list is always a subsequence of the three fixed messages in
their fixed order, hence has at most three entries and no duplicates. -/
theorem c9_validate_errors_invariant (code : List Char) :
    ((validateSolanaProgram code).isValid = true ↔
      (validateSolanaProgram code).errors = []) ∧
    List.Sublist (validateSolanaProgram code).errors
      [missingImportsMsg, missingEntryMsg, unwrapMsg] ∧
    (validateSolanaProgram code).errors.length ≤ 3 ∧
    (validateSolanaProgram code).errors.Nodup := by
  have hsub : List.Sublist (validateSolanaProgram code).errors
      [missingImportsMsg, missingEntryMsg, unwrapMsg] := by
    cases hA : containsSub code (("use anchor_lang::prelude::*").toList) <;>
      cases hB : containsSub code (("use solana_program::").toList) <;>
      cases hC : containsSub code (("#[program]").toList) <;>
      cases hD : containsSub code (("entrypoint!").toList) <;>
      cases hE : containsSub code (("unwrap()").toList) <;>
      simp only [validateSolanaProgram, hA, hB, hC, hD, hE] <;>
      simp
  have hnodup : ([missingImportsMsg, missingEntryMsg, unwrapMsg] :
      List (List Char)).Nodup := by decide
  have hv : (validateSolanaProgram code).isValid =
      (validateSolanaProgram code).errors.isEmpty := rfl
  refine ⟨?_, hsub, ?_, hnodup.sublist hsub⟩
  · rw [hv, List.isEmpty_iff]
  · simpa using hsub.length_le

/-- C10: Stage A's prompt construction treats an empty-string
`fileName` or `programId` the same as an absent one: in both cases the
prompt carries the placeholder "program.rs" resp. "Unknown", because
the defaults are applied with JavaScript truthiness (`||`). -/
theorem c10_prompt_truthiness_defaults (req : AuditRequest) :
    ((req.fileName = none ∨ req.fileName = some []) →
      staticPrompt req =
        staticPromptHead ++ ("program.rs").toList ++ staticPromptMid ++
        jsOr req.programId (("Unknown").toList) ++ staticPromptCodeIntro ++
        req.code ++ staticPromptTail) ∧
    ((req.programId = none ∨ req.programId = some []) →
      staticPrompt req =
        staticPromptHead ++ jsOr req.fileName (("program.rs").toList) ++
        staticPromptMid ++ ("Unknown").toList ++ staticPromptCodeIntro ++
        req.code ++ staticPromptTail) := by
  constructor
  · rintro (h | h) <;> simp [staticPrompt, jsOr, h]
  · rintro (h | h) <;> simp [staticPrompt, jsOr, h]

theorem c10_prompt_truthiness_defaults_witness :
    staticPrompt (AuditRequest.mk (("x").toList) none (some []) none) =
      staticPromptHead ++ ("program.rs").toList ++ staticPromptMid ++
      jsOr (none : Option (List Char)) (("Unknown").toList) ++
      staticPromptCodeIntro ++ ("x").toList ++ staticPromptTail :=
  (c10_prompt_truthiness_defaults
    (AuditRequest.mk (("x").toList) none (some []) none)).1 (Or.inr rfl)

end SolanaAudit
